import Mathlib

/-!
Verification of the ALVR frame-encode pipeline core (Vixea/ALVR).

The repository sources under scrutiny are the two headers
`src/alvr/server/cpp/shared/threadtools.h` and
`src/alvr/server/cpp/platform/win32/CEncoder.h`.  They declare the
thread/event primitives (`CThread`, `CThreadEvent`), the encode worker
(`CEncoder`) and its collaborators (`IDRScheduler`, `VideoEncoder`).
The method bodies live in translation units that are not part of the
provided sources, so each operation below is modelled from the design
document's description of its behaviour, keeping the source's names and
signatures where Lean allows it.
-/

/-- A frame timing record: `{ presentationTime, targetTimestampNs }`,
the metadata `CEncoder::CopyToStaging` captures for one frame
(`m_presentationTime`, `m_targetTimestampNs` in `CEncoder.h`).
Timestamps are 64-bit counters, modelled as `Nat`. -/
structure FrameTiming where
  presentationTime : Nat
  targetTimestampNs : Nat
deriving DecidableEq, Repr

/-- Modelled from the spec: the body of `IDRScheduler`
(`alvr_server/IDRScheduler.h` is included by `CEncoder.h` but not under
the provided sources).  State of the keyframe scheduler: a one-shot
"keyframe requested" latch set by loss/restart/insert events, the index
of the upcoming cycle counted from the last stream (re)start, and the
configured periodic cadence `keyframeIntervalFrames`. -/
structure IDRScheduler where
  idrRequested : Bool
  frameIndex : Nat
  intervalFrames : Nat
deriving DecidableEq, Repr

namespace IDRScheduler

/-- Modelled from the spec: a freshly constructed scheduler for
configuration `keyframeIntervalFrames = K` — no pending one-shot
request, cycle counter at 0 (so cycle 0 hits the periodic cadence). -/
def init (K : Nat) : IDRScheduler :=
  { idrRequested := false, frameIndex := 0, intervalFrames := K }

/-- Modelled from the spec: `OnPacketLoss` sets the one-shot
"keyframe requested" latch; it does not touch the periodic counter. -/
def OnPacketLoss (s : IDRScheduler) : IDRScheduler :=
  { s with idrRequested := true }

/-- Modelled from the spec: `OnStreamStart` forces the immediate next
frame to be a keyframe and resets the periodic counter. -/
def OnStreamStart (s : IDRScheduler) : IDRScheduler :=
  { s with idrRequested := true, frameIndex := 0 }

/-- Modelled from the spec: `InsertIDR` is equivalent to an immediate
loss-trigger latch set. -/
def InsertIDR (s : IDRScheduler) : IDRScheduler :=
  s.OnPacketLoss

/-- The periodic-cadence test for a cycle index `f` under cadence `K`:
keyframes at indices 0, K, 2K, …  (no periodic cadence when `K = 0`). -/
def periodicAt (K f : Nat) : Bool :=
  K != 0 && f % K == 0

/-- Modelled from the spec: `shouldForceKeyframe` — the single per-cycle
query.  The decision is the logical OR of the one-shot latch and the
periodic cadence; the call consumes (clears) the latch and advances the
cycle counter.  Returns the decision together with the updated state. -/
def shouldForceKeyframe (s : IDRScheduler) : Bool × IDRScheduler :=
  (s.idrRequested || periodicAt s.intervalFrames s.frameIndex,
   { s with idrRequested := false, frameIndex := s.frameIndex + 1 })

/-- Run `n` consecutive scheduling cycles with no intervening loss or
restart events, collecting each cycle's `shouldForceKeyframe` decision. -/
def runCycles (s : IDRScheduler) : Nat → List Bool × IDRScheduler
  | 0 => ([], s)
  | n + 1 =>
      let r := s.shouldForceKeyframe
      let rest := runCycles r.2 n
      (r.1 :: rest.1, rest.2)

end IDRScheduler

/-- `CThreadEvent` (`threadtools.h`): a binary signal with a
manual/auto-reset mode chosen at construction.  The declared
constructor is `CThreadEvent(bool bManualReset = false)` on both
platforms; the per-instance state is the signaled flag. -/
structure CThreadEvent where
  manualReset : Bool
  signaled : Bool
deriving DecidableEq, Repr

namespace CThreadEvent

/-- The constructor `CThreadEvent(bool bManualReset = false)`
(`threadtools.h` lines 33 and 47): the default argument `false` selects
auto-reset; a fresh event starts unsignaled. -/
def mkEvent (bManualReset : Bool := false) : CThreadEvent :=
  { manualReset := bManualReset, signaled := false }

/-- Modelled from the spec: the body of `CThreadEvent::Set` is not
under the provided sources.  `Set` signals the event and reports
success as a boolean (platform failure would be reported as `false`,
never a fatal abort; the model has no failing platform calls). -/
def Set (e : CThreadEvent) : CThreadEvent × Bool :=
  ({ e with signaled := true }, true)

/-- Modelled from the spec: the body of `CThreadEvent::Reset` is not
under the provided sources.  `Reset` clears the signaled state. -/
def Reset (e : CThreadEvent) : CThreadEvent × Bool :=
  ({ e with signaled := false }, true)

/-- Modelled from the spec: the body of `CThreadEvent::Wait` is not
under the provided sources.  The blocking wait is modelled at the
instant it returns: it returns `true` exactly when it observed the
event signaled (a timeout or platform failure returns `false`), and a
successful wait on an auto-reset event consumes the signal, while a
manual-reset event stays signaled until `Reset`. -/
def Wait (e : CThreadEvent) : CThreadEvent × Bool :=
  if e.signaled then
    (if e.manualReset then e else { e with signaled := false }, true)
  else
    (e, false)

end CThreadEvent

/-- `CThread` (`threadtools.h`): the lifecycle wrapper owning
`std::thread *m_pThread`.  `none` models the null pointer (unstarted or
already joined); `some id` models an owned, joinable thread. -/
structure CThread where
  m_pThread : Option Nat
deriving DecidableEq, Repr

namespace CThread

/-- Modelled from the spec: the body of the constructor `CThread()` is
not under the provided sources; a fresh wrapper owns no thread. -/
def mkThread : CThread := { m_pThread := none }

/-- Modelled from the spec: the body of `CThread::Start` is not under
the provided sources.  `Start` spawns exactly one background thread and
stores the owned handle. -/
def Start (c : CThread) (id : Nat) : CThread :=
  { c with m_pThread := some id }

/-- Modelled from the spec: the body of `CThread::Join` is not under
the provided sources.  `Join` blocks until the owned thread exits and
releases it; on an unstarted or already-joined wrapper (null
`m_pThread`) it is a safe no-op. -/
def Join (c : CThread) : CThread :=
  match c.m_pThread with
  | none => c
  | some _ => { c with m_pThread := none }

end CThread

/-- `CEncoder` (`CEncoder.h`): the encode worker's state — the two
handoff events `m_newFrameReady, m_encodeFinished`, the shutdown flag
`m_bExiting`, the captured frame timing `m_presentationTime` /
`m_targetTimestampNs`, and the keyframe scheduler `m_scheduler`.
(The texture, renderer and backend handles are opaque collaborators.) -/
structure CEncoder where
  m_newFrameReady : CThreadEvent
  m_encodeFinished : CThreadEvent
  m_bExiting : Bool
  m_presentationTime : Nat
  m_targetTimestampNs : Nat
  m_scheduler : IDRScheduler
deriving DecidableEq, Repr

namespace CEncoder

/-- Modelled from the spec: the body of the constructor `CEncoder()` is
not under the provided sources.  The two events are declared with no
initializer (`CEncoder.h` line 57), so they are default-constructed via
`CThreadEvent(bool bManualReset = false)`; the worker starts not
exiting with a fresh scheduler for cadence `K`. -/
def init (K : Nat) : CEncoder :=
  { m_newFrameReady := CThreadEvent.mkEvent
    m_encodeFinished := CThreadEvent.mkEvent
    m_bExiting := false
    m_presentationTime := 0
    m_targetTimestampNs := 0
    m_scheduler := IDRScheduler.init K }

/-- Modelled from the spec: the body of `CEncoder::CopyToStaging` is
not under the provided sources.  The render thread blocks on the GPU
readback (its outcome is the `gpuCopyOk` input); on success the frame
timing record is captured into the worker state and `true` is
returned; on failure nothing is captured and `false` is returned (the
frame is dropped, no "frame ready" signal follows).  The texture
pointer is an opaque handle and is omitted. -/
def CopyToStaging (e : CEncoder) (presentationTime targetTimestampNs : Nat)
    (gpuCopyOk : Bool) : CEncoder × Bool :=
  if gpuCopyOk then
    ({ e with
        m_presentationTime := presentationTime
        m_targetTimestampNs := targetTimestampNs }, true)
  else
    (e, false)

/-- Modelled from the spec: the body of `CEncoder::Stop` is not under
the provided sources.  `Stop` sets `m_bExiting` and signals
`m_newFrameReady` so a waiting worker wakes and observes the flag. -/
def Stop (e : CEncoder) : CEncoder :=
  { e with m_bExiting := true, m_newFrameReady := e.m_newFrameReady.Set.1 }

/-- The frame timing record the worker reads from the shared state when
it runs an encode cycle (`m_presentationTime`, `m_targetTimestampNs`). -/
def workerTiming (e : CEncoder) : FrameTiming :=
  { presentationTime := e.m_presentationTime
    targetTimestampNs := e.m_targetTimestampNs }

end CEncoder

/-- One render-thread frame submission: the timing arguments passed to
`CopyToStaging` and whether the GPU readback for it succeeds. -/
structure FrameSubmission where
  presentationTime : Nat
  targetTimestampNs : Nat
  gpuCopyOk : Bool
deriving DecidableEq, Repr

/-- Modelled from the spec: the render-thread / worker handoff for a
sequence of frames, under the single-frame-in-flight backpressure
policy (`CopyToStaging` → "frame ready" → worker cycle → "encode
finished", strictly alternating).  For each submission the output
records whether "frame ready" was signaled and, when the worker ran a
cycle for it, the frame timing record the worker handed to the
backend. -/
def CEncoder.runPipeline (e : CEncoder) :
    List FrameSubmission → List (Bool × Option FrameTiming)
  | [] => []
  | f :: rest =>
      let r := e.CopyToStaging f.presentationTime f.targetTimestampNs f.gpuCopyOk
      (r.2, if r.2 then some r.1.workerTiming else none) :: r.1.runPipeline rest

/-- An observable action of the encode worker's loop: invoking
`VideoEncoder`'s encode on the staged frame, or signaling the
`m_encodeFinished` event. -/
inductive WorkerEvent where
  | encodeFrame (t : FrameTiming)
  | signalEncodeFinished
deriving DecidableEq, Repr

/-- One wake-up of the worker from its `m_newFrameReady` wait: the
value of `m_bExiting` it observes at the top of the loop, and the
staged frame's timing record if it is to encode. -/
structure WakeInput where
  exiting : Bool
  timing : FrameTiming
deriving DecidableEq, Repr

/-- Modelled from the spec: the body of `CEncoder::Run` is not under
the provided sources.  The worker loop, one iteration per wake-up:
at the top of each wait it checks `m_bExiting`; if set it signals
"encode finished" one final time and exits the loop; otherwise it
encodes the staged frame and signals "encode finished", then waits
again.  Inputs after the exiting wake are never observed. -/
def CEncoder.RunLoop : List WakeInput → List WorkerEvent
  | [] => []
  | w :: ws =>
      if w.exiting then
        [WorkerEvent.signalEncodeFinished]
      else
        WorkerEvent.encodeFrame w.timing ::
          WorkerEvent.signalEncodeFinished :: CEncoder.RunLoop ws

/-- Modelled from the spec: one worker encode cycle against the
backend.  The worker queries `shouldForceKeyframe` once, then invokes
`VideoEncoder`'s encode; on a recoverable backend failure the frame is
dropped (no packet emitted) and the cycle otherwise completes
normally.  Returns the keyframe decision, the emitted packet (timing
and keyframe flag) if any, and the updated scheduler. -/
def encodeCycle (s : IDRScheduler) (t : FrameTiming) (backendOk : Bool) :
    (Bool × Option (FrameTiming × Bool)) × IDRScheduler :=
  let r := s.shouldForceKeyframe
  ((r.1, if backendOk then some (t, r.1) else none), r.2)

/-- Run consecutive worker encode cycles over a list of staged frames,
each tagged with its backend outcome; collects each cycle's keyframe
decision and emitted packet. -/
def runEncodeCycles (s : IDRScheduler) :
    List (FrameTiming × Bool) → List (Bool × Option (FrameTiming × Bool)) × IDRScheduler
  | [] => ([], s)
  | f :: rest =>
      let c := encodeCycle s f.1 f.2
      let r := runEncodeCycles c.2 rest
      (c.1 :: r.1, r.2)

/-! ## Helper lemmas -/

/-- With no pending one-shot request, a run of `j` cycles produces the
pure periodic cadence starting at the current cycle index, never sets
the latch, and advances the cycle counter by `j`. -/
theorem IDRScheduler.runCycles_spec (j : Nat) (s : IDRScheduler)
    (hs : s.idrRequested = false) :
    (IDRScheduler.runCycles s j).1 =
      (List.range j).map (fun i =>
        IDRScheduler.periodicAt s.intervalFrames (s.frameIndex + i)) ∧
    (IDRScheduler.runCycles s j).2 =
      { idrRequested := false, frameIndex := s.frameIndex + j,
        intervalFrames := s.intervalFrames } := by
  induction j generalizing s with
  | zero =>
      obtain ⟨l, f, K⟩ := s
      cases hs
      simp [IDRScheduler.runCycles]
  | succ j ih =>
      obtain ⟨l, f, K⟩ := s
      cases hs
      obtain ⟨ih1, ih2⟩ := ih
        { idrRequested := false, frameIndex := f + 1, intervalFrames := K } rfl
      constructor
      · simp only [IDRScheduler.runCycles, IDRScheduler.shouldForceKeyframe,
          Bool.false_or, ih1, List.range_succ_eq_map, List.map_cons,
          List.map_map, Function.comp]
        congr 1
        exact List.map_congr_left fun i _ =>
          congrArg (IDRScheduler.periodicAt K) (by omega)
      · simp only [IDRScheduler.runCycles, IDRScheduler.shouldForceKeyframe, ih2]
        have h : f + 1 + j = f + (j + 1) := by omega
        rw [h]

/-- Applying `OnPacketLoss` once more after any application leaves the
scheduler unchanged: the latch is a flag, not a counter. -/
theorem IDRScheduler.onPacketLoss_iterate (m : Nat) (s : IDRScheduler) :
    IDRScheduler.OnPacketLoss^[m] (s.OnPacketLoss) = s.OnPacketLoss := by
  induction m generalizing s with
  | zero => rfl
  | succ m ih =>
      rw [Function.iterate_succ_apply]
      have h : (s.OnPacketLoss).OnPacketLoss = s.OnPacketLoss := rfl
      rw [h, ih]

/-! ## Claim theorems -/

/-- C1: after one or more `OnPacketLoss` calls, `shouldForceKeyframe`
returns `true` for exactly the next cycle; every subsequent cycle
(absent further loss reports) follows the pure periodic cadence, so it
returns `false` unless the cadence hits — in particular two
`OnPacketLoss` calls before a cycle yield one forced keyframe, not
two. -/
theorem IDRScheduler.onPacketLoss_one_shot (s : IDRScheduler) (n j : Nat)
    (hn : 0 < n) :
    (IDRScheduler.OnPacketLoss^[n] s).shouldForceKeyframe.1 = true ∧
    (IDRScheduler.runCycles
        ((IDRScheduler.OnPacketLoss^[n] s).shouldForceKeyframe.2) j).1 =
      (List.range j).map (fun i =>
        IDRScheduler.periodicAt s.intervalFrames (s.frameIndex + 1 + i)) := by
  obtain ⟨m, rfl⟩ : ∃ m, n = m + 1 := ⟨n - 1, by omega⟩
  have hiter : IDRScheduler.OnPacketLoss^[m + 1] s = s.OnPacketLoss := by
    rw [Function.iterate_succ_apply]
    exact IDRScheduler.onPacketLoss_iterate m s
  rw [hiter]
  constructor
  · simp [IDRScheduler.OnPacketLoss, IDRScheduler.shouldForceKeyframe]
  · have h := IDRScheduler.runCycles_spec j
      ((s.OnPacketLoss).shouldForceKeyframe.2) rfl
    rw [h.1]
    rfl

/-- C1 witness: two loss reports on a fresh scheduler with cadence 30,
then three further cycles. -/
theorem IDRScheduler.onPacketLoss_one_shot_witness :
    0 < 2 ∧
    ((IDRScheduler.OnPacketLoss^[2] (IDRScheduler.init 30)).shouldForceKeyframe.1
        = true ∧
      (IDRScheduler.runCycles
          ((IDRScheduler.OnPacketLoss^[2]
            (IDRScheduler.init 30)).shouldForceKeyframe.2) 3).1 =
        (List.range 3).map (fun i =>
          IDRScheduler.periodicAt (IDRScheduler.init 30).intervalFrames
            ((IDRScheduler.init 30).frameIndex + 1 + i))) :=
  ⟨by decide, IDRScheduler.onPacketLoss_one_shot (IDRScheduler.init 30) 2 3 (by decide)⟩

/-- C3: with cadence `K > 0` and no loss or restart events, a fresh
scheduler forces a keyframe exactly on the cycles whose index is a
multiple of `K` (indices 0, K, 2K, …). -/
theorem IDRScheduler.periodic_cadence (K n : Nat) (hK : 0 < K) :
    (IDRScheduler.runCycles (IDRScheduler.init K) n).1 =
      (List.range n).map (fun i => i % K == 0) := by
  have h := IDRScheduler.runCycles_spec n (IDRScheduler.init K) rfl
  rw [h.1]
  have hKne : (K != 0) = true := by simp [Nat.pos_iff_ne_zero.mp hK]
  simp [IDRScheduler.periodicAt, IDRScheduler.init, hKne]

/-- C3 witness: with `keyframeIntervalFrames = 30`, over 31 cycles the
keyframes fall exactly on cycles 0 and 30. -/
theorem IDRScheduler.periodic_cadence_witness :
    0 < 30 ∧
    (IDRScheduler.runCycles (IDRScheduler.init 30) 31).1 =
      (List.range 31).map (fun i => i % 30 == 0) :=
  ⟨by decide, IDRScheduler.periodic_cadence 30 31 (by decide)⟩

/-- C4: from any scheduler state, `OnStreamStart` makes the very next
cycle force a keyframe regardless of the periodic counter, and resets
the counter so the following cycles run the periodic cadence measured
from the restart (cycle `i + 1` after the restart hits iff the cadence
divides `i + 1`). -/
theorem IDRScheduler.onStreamStart_forces_next_and_resets
    (s : IDRScheduler) (j : Nat) :
    s.OnStreamStart.shouldForceKeyframe.1 = true ∧
    (IDRScheduler.runCycles (s.OnStreamStart.shouldForceKeyframe.2) j).1 =
      (List.range j).map (fun i =>
        IDRScheduler.periodicAt s.intervalFrames (1 + i)) := by
  constructor
  · simp [IDRScheduler.OnStreamStart, IDRScheduler.shouldForceKeyframe]
  · have h := IDRScheduler.runCycles_spec j
      (s.OnStreamStart.shouldForceKeyframe.2) rfl
    rw [h.1]
    rfl

/-- C2: under the blocking handoff, for every sequence of successful
`CopyToStaging` calls, the frame timing record the worker hands to the
backend in each cycle is exactly the one captured by that cycle's
`CopyToStaging` call — no interleaving or corruption across cycles. -/
theorem CEncoder.pipeline_timing_exact (e : CEncoder)
    (frames : List (Nat × Nat)) :
    e.runPipeline (frames.map (fun p =>
        { presentationTime := p.1, targetTimestampNs := p.2,
          gpuCopyOk := true })) =
      frames.map (fun p =>
        (true, some { presentationTime := p.1, targetTimestampNs := p.2 })) := by
  induction frames generalizing e with
  | nil => rfl
  | cons f rest ih =>
      simp [CEncoder.runPipeline, CEncoder.CopyToStaging,
        CEncoder.workerTiming, ih]

/-- C6: a failed GPU readback makes `CopyToStaging` return `false`
without touching the captured state; across a whole submission
sequence, a failed cycle yields no "frame ready" signal and no worker
cycle, and each later successful frame is observed with its own
timing record. -/
theorem CEncoder.staging_failure_drops_frame (e : CEncoder)
    (p t : Nat) (subs : List FrameSubmission) :
    e.CopyToStaging p t false = (e, false) ∧
    e.runPipeline subs =
      subs.map (fun f =>
        if f.gpuCopyOk then
          (true, some { presentationTime := f.presentationTime,
                        targetTimestampNs := f.targetTimestampNs })
        else (false, none)) := by
  refine ⟨rfl, ?_⟩
  induction subs generalizing e with
  | nil => rfl
  | cons f rest ih =>
      cases hok : f.gpuCopyOk <;>
        simp [CEncoder.runPipeline, CEncoder.CopyToStaging,
          CEncoder.workerTiming, hok, ih]

/-- C7: backend outcomes never feed back into the scheduler: across any
sequence of encode cycles, the per-cycle keyframe decisions and the
final scheduler state are exactly those of the failure-free run of the
same length, so a dropped frame leaves the periodic cadence at the same
cycle indices. -/
theorem cadence_unaffected_by_backend_failure (s : IDRScheduler)
    (frames : List (FrameTiming × Bool)) :
    (runEncodeCycles s frames).1.map Prod.fst =
      (IDRScheduler.runCycles s frames.length).1 ∧
    (runEncodeCycles s frames).2 =
      (IDRScheduler.runCycles s frames.length).2 := by
  induction frames generalizing s with
  | nil => exact ⟨rfl, rfl⟩
  | cons f rest ih =>
      have h := ih s.shouldForceKeyframe.2
      constructor
      · simpa [runEncodeCycles, encodeCycle, IDRScheduler.runCycles]
          using h.1
      · simpa [runEncodeCycles, encodeCycle, IDRScheduler.runCycles]
          using h.2

/-- C5: once the worker wakes with `m_bExiting` observed set, it
signals "encode finished" exactly once more and exits the loop: the
trace of the full run is the pre-shutdown trace plus that one final
signal, the backend is invoked exactly for the pre-shutdown frames and
never after the flag is observed, and inputs after the exiting wake are
never processed (so `Join` has only the in-flight cycle to wait out). -/
theorem CEncoder.shutdown_final_signal (pre post : List WakeInput)
    (w : WakeInput) (hpre : ∀ x ∈ pre, x.exiting = false)
    (hw : w.exiting = true) :
    CEncoder.RunLoop (pre ++ w :: post) =
      CEncoder.RunLoop pre ++ [WorkerEvent.signalEncodeFinished] ∧
    (CEncoder.RunLoop (pre ++ w :: post)).filterMap
        (fun ev => match ev with
          | WorkerEvent.encodeFrame t => some t
          | WorkerEvent.signalEncodeFinished => none) =
      pre.map WakeInput.timing := by
  induction pre with
  | nil => simp [CEncoder.RunLoop, hw]
  | cons x xs ih =>
      have hx : x.exiting = false := hpre x (by simp)
      have h := ih (fun y hy => hpre y (by simp [hy]))
      constructor
      · simp [CEncoder.RunLoop, hx, h.1]
      · simp [CEncoder.RunLoop, hx, List.filterMap, h.2]

/-- C5 witness: one normal frame, then a wake with the exiting flag
set, then one more (never-processed) input. -/
theorem CEncoder.shutdown_final_signal_witness :
    (∀ x ∈ [({ exiting := false, timing := ⟨1, 2⟩ } : WakeInput)],
        x.exiting = false) ∧
    ({ exiting := true, timing := ⟨5, 6⟩ } : WakeInput).exiting = true ∧
    (CEncoder.RunLoop ([({ exiting := false, timing := ⟨1, 2⟩ } : WakeInput)] ++
        ({ exiting := true, timing := ⟨5, 6⟩ } : WakeInput) ::
          [({ exiting := false, timing := ⟨3, 4⟩ } : WakeInput)]) =
      CEncoder.RunLoop [({ exiting := false, timing := ⟨1, 2⟩ } : WakeInput)] ++
        [WorkerEvent.signalEncodeFinished] ∧
    (CEncoder.RunLoop ([({ exiting := false, timing := ⟨1, 2⟩ } : WakeInput)] ++
        ({ exiting := true, timing := ⟨5, 6⟩ } : WakeInput) ::
          [({ exiting := false, timing := ⟨3, 4⟩ } : WakeInput)])).filterMap
        (fun ev => match ev with
          | WorkerEvent.encodeFrame t => some t
          | WorkerEvent.signalEncodeFinished => none) =
      [({ exiting := false, timing := ⟨1, 2⟩ } : WakeInput)].map
        WakeInput.timing) :=
  ⟨by decide, rfl,
    CEncoder.shutdown_final_signal
      [({ exiting := false, timing := ⟨1, 2⟩ } : WakeInput)]
      [({ exiting := false, timing := ⟨3, 4⟩ } : WakeInput)]
      ({ exiting := true, timing := ⟨5, 6⟩ } : WakeInput)
      (by decide) rfl⟩

/-- C8: `Join` on a `CThread` that owns no thread (unstarted, or
already joined) is a safe no-op leaving the state unchanged, and a
second `Join` after any `Join` changes nothing. -/
theorem CThread.join_idempotent_safe (c : CThread) :
    (c.m_pThread = none → c.Join = c) ∧ c.Join.Join = c.Join := by
  obtain ⟨p⟩ := c
  cases p <;> simp [CThread.Join]

/-- C8 witness: `Join` before `Start` on a fresh wrapper, and a double
`Join` after a `Start`. -/
theorem CThread.join_idempotent_safe_witness :
    CThread.mkThread.Join = CThread.mkThread ∧
    (CThread.mkThread.Start 0).Join.Join = (CThread.mkThread.Start 0).Join :=
  ⟨(CThread.join_idempotent_safe CThread.mkThread).1 rfl,
    (CThread.join_idempotent_safe (CThread.mkThread.Start 0)).2⟩

/-- C9: for every event state, `Wait` returns `true` exactly when it
observed the event signaled (so an unsignaled event times out with
`false`), and `Set` signals the event and reports success as a
boolean. -/
theorem CThreadEvent.wait_observes_signal (e : CThreadEvent) :
    e.Wait.2 = e.signaled ∧ e.Set.2 = true ∧ e.Set.1.signaled = true := by
  obtain ⟨m, sg⟩ := e
  cases sg <;> cases m <;> simp [CThreadEvent.Wait, CThreadEvent.Set]

/-- C10: a default-constructed `CThreadEvent` is auto-reset
(`bManualReset` defaults to `false`), `CEncoder`'s two handoff events
are default-constructed, and on such an event a `Set` followed by a
successful `Wait` self-resets the signal, so a second `Wait` does not
succeed (at most one waiter is released per `Set`). -/
theorem CThreadEvent.auto_reset_default (K : Nat) :
    CThreadEvent.mkEvent.manualReset = false ∧
    (CEncoder.init K).m_newFrameReady = CThreadEvent.mkEvent ∧
    (CEncoder.init K).m_encodeFinished = CThreadEvent.mkEvent ∧
    CThreadEvent.mkEvent.Set.1.Wait = (CThreadEvent.mkEvent, true) ∧
    CThreadEvent.mkEvent.Set.1.Wait.1.Wait.2 = false :=
  ⟨rfl, rfl, rfl, by decide, by decide⟩
